import Mathlib

/-!
Verification of the core data structures of the marisa-trie fork:
the configuration-flag parser (src/lib/marisa/grimoire/trie/config.h),
the growable/mappable vector and its serialization
(src/lib/marisa/grimoire/vector/vector.h), and the trie-level I/O entry
points (src/unnamed/part_000, marisa/trie.cc).  C++ machine integers are
modelled as `Nat` with explicit bit masks; exceptions are modelled with
`Except`/`Option`; `assert` statements (compiled out in release builds)
are modelled as no-ops, while `MARISA_THROW_IF` is a real error path.
-/

namespace marisa

/-- The exception kinds raised via MARISA_THROW in the sources:
std::invalid_argument, std::logic_error, std::runtime_error, and the
i/o failures of the reader/mapper plumbing. -/
inductive Err where
  | invalid_argument
  | logic_error
  | runtime_error
  | io_error
deriving DecidableEq, Repr

deriving instance DecidableEq for Except

/-! ### Configuration flags (src/lib/marisa/grimoire/trie/config.h)

The constants come from marisa/base.h, which is not part of the sources
under verification; they are modelled from the spec. -/

/-- Modelled from the spec: marisa/base.h is not under src/.  Spec §6 puts
four groups into one integer bitfield; num_tries holds 1..7, so it is a
3-bit field. -/
def MARISA_NUM_TRIES_MASK : Nat := 0x7

/-- Modelled from the spec: one flag bit per cache level (tiny..huge). -/
def MARISA_HUGE_CACHE : Nat := 0x8

/-- Modelled from the spec: one flag bit per cache level. -/
def MARISA_LARGE_CACHE : Nat := 0x10

/-- Modelled from the spec: one flag bit per cache level. -/
def MARISA_NORMAL_CACHE : Nat := 0x20

/-- Modelled from the spec: one flag bit per cache level. -/
def MARISA_SMALL_CACHE : Nat := 0x40

/-- Modelled from the spec: one flag bit per cache level. -/
def MARISA_TINY_CACHE : Nat := 0x80

/-- Modelled from the spec: the cache-level group of the bitfield. -/
def MARISA_CACHE_LEVEL_MASK : Nat := 0xF8

/-- Modelled from the spec: tail-mode flag (text). -/
def MARISA_TEXT_TAIL : Nat := 0x100

/-- Modelled from the spec: tail-mode flag (binary). -/
def MARISA_BINARY_TAIL : Nat := 0x200

/-- Modelled from the spec: the tail-mode group of the bitfield. -/
def MARISA_TAIL_MODE_MASK : Nat := 0x300

/-- Modelled from the spec: node-order flag (label). -/
def MARISA_LABEL_ORDER : Nat := 0x400

/-- Modelled from the spec: node-order flag (weight). -/
def MARISA_WEIGHT_ORDER : Nat := 0x800

/-- Modelled from the spec: the node-order group of the bitfield. -/
def MARISA_NODE_ORDER_MASK : Nat := 0xC00

/-- Modelled from the spec: the reserved configuration mask — the union
of the four group fields. -/
def MARISA_CONFIG_MASK : Nat := 0xFFF

/-- Modelled from the spec: defaults of §6 — num_tries 3, normal cache,
binary tail, weight order. -/
def MARISA_DEFAULT_NUM_TRIES : Nat := 3

/-- Modelled from the spec: default cache level is normal. -/
def MARISA_DEFAULT_CACHE : Nat := MARISA_NORMAL_CACHE

/-- Modelled from the spec: default tail mode is binary. -/
def MARISA_DEFAULT_TAIL : Nat := MARISA_BINARY_TAIL

/-- Modelled from the spec: default node order is weight. -/
def MARISA_DEFAULT_ORDER : Nat := MARISA_WEIGHT_ORDER

/-- `~MARISA_CONFIG_MASK` as a 32-bit int bit pattern (config_flags has
C++ type `int`). -/
def NOT_CONFIG_MASK : Nat := 0xFFFFFFFF ^^^ MARISA_CONFIG_MASK

/-- The Config class: a single int member `flags_`, modelled as the
32-bit pattern of that int. -/
structure Config where
  flags_ : Nat
deriving DecidableEq, Repr

/-- The member initializer of `flags_` (config.h lines 54-55): the four
defaults or-ed together.  A default-constructed Config carries it. -/
def Config.init : Config :=
  ⟨MARISA_DEFAULT_NUM_TRIES ||| MARISA_DEFAULT_CACHE |||
    MARISA_DEFAULT_TAIL ||| MARISA_DEFAULT_ORDER⟩

/-- Config::parse_num_tries (config.h lines 57-58).  The body of the
function is empty: it neither validates nor stores the num_tries field. -/
def Config.parse_num_tries (fl _config_flags : Nat) : Except Err Nat :=
  .ok fl

/-- Config::parse_cache_level (config.h lines 60-85): a switch on the
masked group; case 0 or-s in the default, the five recognized levels
fall through without touching `flags_`, anything else throws
std::invalid_argument. -/
def Config.parse_cache_level (fl config_flags : Nat) : Except Err Nat :=
  if config_flags &&& MARISA_CACHE_LEVEL_MASK = 0 then
    .ok (fl ||| MARISA_DEFAULT_CACHE)
  else if config_flags &&& MARISA_CACHE_LEVEL_MASK = MARISA_HUGE_CACHE then .ok fl
  else if config_flags &&& MARISA_CACHE_LEVEL_MASK = MARISA_LARGE_CACHE then .ok fl
  else if config_flags &&& MARISA_CACHE_LEVEL_MASK = MARISA_NORMAL_CACHE then .ok fl
  else if config_flags &&& MARISA_CACHE_LEVEL_MASK = MARISA_SMALL_CACHE then .ok fl
  else if config_flags &&& MARISA_CACHE_LEVEL_MASK = MARISA_TINY_CACHE then .ok fl
  else .error .invalid_argument

/-- Config::parse_tail_mode (config.h lines 87-103). -/
def Config.parse_tail_mode (fl config_flags : Nat) : Except Err Nat :=
  if config_flags &&& MARISA_TAIL_MODE_MASK = 0 then
    .ok (fl ||| MARISA_DEFAULT_TAIL)
  else if config_flags &&& MARISA_TAIL_MODE_MASK = MARISA_TEXT_TAIL then .ok fl
  else if config_flags &&& MARISA_TAIL_MODE_MASK = MARISA_BINARY_TAIL then .ok fl
  else .error .invalid_argument

/-- Config::parse_node_order (config.h lines 105-121). -/
def Config.parse_node_order (fl config_flags : Nat) : Except Err Nat :=
  if config_flags &&& MARISA_NODE_ORDER_MASK = 0 then
    .ok (fl ||| MARISA_DEFAULT_ORDER)
  else if config_flags &&& MARISA_NODE_ORDER_MASK = MARISA_LABEL_ORDER then .ok fl
  else if config_flags &&& MARISA_NODE_ORDER_MASK = MARISA_WEIGHT_ORDER then .ok fl
  else .error .invalid_argument

/-- Config::parse (config.h lines 19-27): throws std::invalid_argument
on bits outside MARISA_CONFIG_MASK, then runs the four group parsers in
order, threading `flags_`. -/
def Config.parse (self : Config) (config_flags : Nat) : Except Err Config :=
  if config_flags &&& NOT_CONFIG_MASK ≠ 0 then .error .invalid_argument
  else
    match Config.parse_num_tries self.flags_ config_flags with
    | .error e => .error e
    | .ok f1 =>
      match Config.parse_cache_level f1 config_flags with
      | .error e => .error e
      | .ok f2 =>
        match Config.parse_tail_mode f2 config_flags with
        | .error e => .error e
        | .ok f3 =>
          match Config.parse_node_order f3 config_flags with
          | .error e => .error e
          | .ok f4 => .ok ⟨f4⟩

/-- Config::num_tries (config.h lines 33-35). -/
def Config.num_tries (c : Config) : Nat := c.flags_ &&& MARISA_NUM_TRIES_MASK

/-- Config::cache_level (config.h lines 36-38), as the raw flag value. -/
def Config.cache_level (c : Config) : Nat := c.flags_ &&& MARISA_CACHE_LEVEL_MASK

/-- Config::tail_mode (config.h lines 39-41), as the raw flag value. -/
def Config.tail_mode (c : Config) : Nat := c.flags_ &&& MARISA_TAIL_MODE_MASK

/-- Config::node_order (config.h lines 42-44), as the raw flag value. -/
def Config.node_order (c : Config) : Nat := c.flags_ &&& MARISA_NODE_ORDER_MASK

/-- Spec §6: the cache-level field of a flags value is recognized —
absent (zero) or exactly one of the five levels. -/
def specValidCache (cf : Nat) : Prop :=
  cf &&& MARISA_CACHE_LEVEL_MASK = 0 ∨
  cf &&& MARISA_CACHE_LEVEL_MASK = MARISA_HUGE_CACHE ∨
  cf &&& MARISA_CACHE_LEVEL_MASK = MARISA_LARGE_CACHE ∨
  cf &&& MARISA_CACHE_LEVEL_MASK = MARISA_NORMAL_CACHE ∨
  cf &&& MARISA_CACHE_LEVEL_MASK = MARISA_SMALL_CACHE ∨
  cf &&& MARISA_CACHE_LEVEL_MASK = MARISA_TINY_CACHE

instance (cf : Nat) : Decidable (specValidCache cf) := by
  unfold specValidCache; infer_instance

/-- Spec §6: the tail-mode field is recognized — absent, text or binary. -/
def specValidTail (cf : Nat) : Prop :=
  cf &&& MARISA_TAIL_MODE_MASK = 0 ∨
  cf &&& MARISA_TAIL_MODE_MASK = MARISA_TEXT_TAIL ∨
  cf &&& MARISA_TAIL_MODE_MASK = MARISA_BINARY_TAIL

instance (cf : Nat) : Decidable (specValidTail cf) := by
  unfold specValidTail; infer_instance

/-- Spec §6: the node-order field is recognized — absent, label or weight. -/
def specValidOrder (cf : Nat) : Prop :=
  cf &&& MARISA_NODE_ORDER_MASK = 0 ∨
  cf &&& MARISA_NODE_ORDER_MASK = MARISA_LABEL_ORDER ∨
  cf &&& MARISA_NODE_ORDER_MASK = MARISA_WEIGHT_ORDER

instance (cf : Nat) : Decidable (specValidOrder cf) := by
  unfold specValidOrder; infer_instance

theorem parse_cache_level_ok (fl cf : Nat) (h : specValidCache cf) :
    ∃ f, Config.parse_cache_level fl cf = .ok f := by
  unfold Config.parse_cache_level
  split_ifs <;> first | exact ⟨_, rfl⟩ | simp_all [specValidCache]

theorem parse_cache_level_err (fl cf : Nat) (h : ¬ specValidCache cf) :
    Config.parse_cache_level fl cf = .error .invalid_argument := by
  unfold Config.parse_cache_level
  split_ifs <;> simp_all [specValidCache]

theorem parse_tail_mode_ok (fl cf : Nat) (h : specValidTail cf) :
    ∃ f, Config.parse_tail_mode fl cf = .ok f := by
  unfold Config.parse_tail_mode
  split_ifs <;> first | exact ⟨_, rfl⟩ | simp_all [specValidTail]

theorem parse_tail_mode_err (fl cf : Nat) (h : ¬ specValidTail cf) :
    Config.parse_tail_mode fl cf = .error .invalid_argument := by
  unfold Config.parse_tail_mode
  split_ifs <;> simp_all [specValidTail]

theorem parse_node_order_ok (fl cf : Nat) (h : specValidOrder cf) :
    ∃ f, Config.parse_node_order fl cf = .ok f := by
  unfold Config.parse_node_order
  split_ifs <;> first | exact ⟨_, rfl⟩ | simp_all [specValidOrder]

theorem parse_node_order_err (fl cf : Nat) (h : ¬ specValidOrder cf) :
    Config.parse_node_order fl cf = .error .invalid_argument := by
  unfold Config.parse_node_order
  split_ifs <;> simp_all [specValidOrder]

theorem parse_ok_of_valid (self : Config) (cf : Nat)
    (h1 : cf &&& NOT_CONFIG_MASK = 0) (h2 : specValidCache cf)
    (h3 : specValidTail cf) (h4 : specValidOrder cf) :
    ∃ c, Config.parse self cf = .ok c := by
  obtain ⟨f2, hf2⟩ := parse_cache_level_ok self.flags_ cf h2
  obtain ⟨f3, hf3⟩ := parse_tail_mode_ok f2 cf h3
  obtain ⟨f4, hf4⟩ := parse_node_order_ok f3 cf h4
  exact ⟨⟨f4⟩, by simp [Config.parse, Config.parse_num_tries, h1, hf2, hf3, hf4]⟩

theorem parse_err_of_invalid (self : Config) (cf : Nat)
    (h : cf &&& NOT_CONFIG_MASK ≠ 0 ∨ ¬ specValidCache cf ∨
      ¬ specValidTail cf ∨ ¬ specValidOrder cf) :
    Config.parse self cf = .error .invalid_argument := by
  by_cases h1 : cf &&& NOT_CONFIG_MASK ≠ 0
  · simp [Config.parse, h1]
  · rcases h with h | h | h | h
    · exact absurd h h1
    · simp [Config.parse, Config.parse_num_tries, h1,
        parse_cache_level_err self.flags_ cf h]
    · by_cases h2 : specValidCache cf
      · obtain ⟨f2, hf2⟩ := parse_cache_level_ok self.flags_ cf h2
        simp [Config.parse, Config.parse_num_tries, h1, hf2,
          parse_tail_mode_err f2 cf h]
      · simp [Config.parse, Config.parse_num_tries, h1,
          parse_cache_level_err self.flags_ cf h2]
    · by_cases h2 : specValidCache cf
      · obtain ⟨f2, hf2⟩ := parse_cache_level_ok self.flags_ cf h2
        by_cases h3 : specValidTail cf
        · obtain ⟨f3, hf3⟩ := parse_tail_mode_ok f2 cf h3
          simp [Config.parse, Config.parse_num_tries, h1, hf2, hf3,
            parse_node_order_err f3 cf h]
        · simp [Config.parse, Config.parse_num_tries, h1, hf2,
            parse_tail_mode_err f2 cf h3]
      · simp [Config.parse, Config.parse_num_tries, h1,
          parse_cache_level_err self.flags_ cf h2]

/-- C1: the configuration accessors do not report the requested group
values.  parse(5), parse(huge cache), parse(text tail) and
parse(label order) all succeed, yet the parsed Config still carries the
default flags, so num_tries() = 3 (not 5), cache_level() = normal (not
huge), tail_mode() = binary (not text) and node_order() = weight (not
label): Config::parse validates the groups but never stores them
(parse_num_tries has an empty body; the recognized switch cases only
break). -/
theorem C1_config_ignores_requested_groups :
    (Config.init.parse 5 = .ok Config.init ∧
      Config.init.num_tries = 3 ∧ (3 : Nat) ≠ 5) ∧
    (Config.init.parse MARISA_HUGE_CACHE = .ok Config.init ∧
      Config.init.cache_level = MARISA_NORMAL_CACHE ∧
      MARISA_NORMAL_CACHE ≠ MARISA_HUGE_CACHE) ∧
    (Config.init.parse MARISA_TEXT_TAIL = .ok Config.init ∧
      Config.init.tail_mode = MARISA_BINARY_TAIL ∧
      MARISA_BINARY_TAIL ≠ MARISA_TEXT_TAIL) ∧
    (Config.init.parse MARISA_LABEL_ORDER = .ok Config.init ∧
      Config.init.node_order = MARISA_WEIGHT_ORDER ∧
      MARISA_WEIGHT_ORDER ≠ MARISA_LABEL_ORDER) := by decide

/-- C2 counterexample: the claim requires parse to fail when the
num_tries field is 0, but parse(0) — whose num_tries field is 0 —
succeeds and leaves the defaults in place. -/
theorem C2_counterexample :
    (0 : Nat) &&& MARISA_NUM_TRIES_MASK = 0 ∧
    Config.init.parse 0 = .ok Config.init := by decide

/-- C2 (amended): Config::parse(config_flags) fails with an
invalid-argument error iff config_flags has a bit set outside the
reserved configuration mask or the cache-level, tail-mode or node-order
field holds an unrecognized combination; the num_tries field is never
validated — 0 selects the default and every value the field can hold is
accepted. -/
theorem C2_parse_fail_iff (cf : Nat) (_h32 : cf < 2 ^ 32) :
    Config.init.parse cf = .error .invalid_argument ↔
      (cf &&& NOT_CONFIG_MASK ≠ 0 ∨ ¬ specValidCache cf ∨
        ¬ specValidTail cf ∨ ¬ specValidOrder cf) := by
  constructor
  · intro h
    by_contra hneg
    push_neg at hneg
    obtain ⟨h1, h2, h3, h4⟩ := hneg
    obtain ⟨c, hc⟩ := parse_ok_of_valid Config.init cf
      (by simpa using h1) (by simpa using h2) (by simpa using h3) (by simpa using h4)
    rw [hc] at h
    exact Except.noConfusion h
  · exact parse_err_of_invalid Config.init cf

/-- C2 witness: at config_flags = 0x1000 (a bit outside the mask) the
amended equivalence applies and reports failure. -/
theorem C2_parse_fail_iff_witness :
    (0x1000 : Nat) < 2 ^ 32 ∧
      (Config.init.parse 0x1000 = .error .invalid_argument ↔
        ((0x1000 : Nat) &&& NOT_CONFIG_MASK ≠ 0 ∨ ¬ specValidCache 0x1000 ∨
          ¬ specValidTail 0x1000 ∨ ¬ specValidOrder 0x1000)) :=
  ⟨by decide, C2_parse_fail_iff 0x1000 (by decide)⟩

/-! ### Byte-level little-endian framing

Modelled from the spec: the Reader/Writer/Mapper plumbing of
marisa/grimoire/io.h is not under src/; §4.8 fixes the byte format —
little-endian multi-byte integers, and each vector block padded to
8-byte alignment (a writer seek emits padding bytes, a reader seek
consumes them, a mapper seek skips them). -/

/-- Little-endian encoding of a value into `n` bytes. -/
def leEnc : Nat → Nat → List Nat
  | 0, _ => []
  | n + 1, x => x % 256 :: leEnc n (x / 256)

/-- Little-endian decoding of a byte list. -/
def leDec : List Nat → Nat
  | [] => 0
  | b :: bs => b + 256 * leDec bs

theorem leEnc_length (n x : Nat) : (leEnc n x).length = n := by
  induction n generalizing x with
  | zero => rfl
  | succ n ih => simp [leEnc, ih]

theorem leDec_leEnc (n x : Nat) : leDec (leEnc n x) = x % 2 ^ (8 * n) := by
  induction n generalizing x with
  | zero => simp [leEnc, leDec, Nat.mod_one]
  | succ n ih =>
    have h : (2 : Nat) ^ (8 * (n + 1)) = 256 * 2 ^ (8 * n) := by
      rw [Nat.mul_succ, pow_add]; ring
    rw [leEnc, leDec, ih, h, Nat.mod_mul]

/-- The machine bytes of a list of `w`-byte elements, in order. -/
def encodeObjs (w : Nat) : List Nat → List Nat
  | [] => []
  | x :: xs => leEnc w x ++ encodeObjs w xs

theorem encodeObjs_length (w : Nat) (xs : List Nat) :
    (encodeObjs w xs).length = w * xs.length := by
  induction xs with
  | nil => simp [encodeObjs]
  | cons x xs ih => simp [encodeObjs, ih, leEnc_length, Nat.mul_succ]; ring

/-- Decoding `n` elements of `w` bytes each from a byte list. -/
def decodeObjs (w : Nat) : Nat → List Nat → List Nat
  | 0, _ => []
  | n + 1, bs => leDec (bs.take w) :: decodeObjs w n (bs.drop w)

theorem decodeObjs_encodeObjs (w : Nat) (xs rest : List Nat)
    (hx : ∀ x ∈ xs, x < 2 ^ (8 * w)) :
    decodeObjs w xs.length (encodeObjs w xs ++ rest) = xs := by
  induction xs generalizing rest with
  | nil => rfl
  | cons x xs ih =>
    have hw : (leEnc w x).length = w := leEnc_length w x
    have htake : ((leEnc w x ++ (encodeObjs w xs ++ rest)).take w) = leEnc w x :=
      List.take_left' hw
    have hdrop : ((leEnc w x ++ (encodeObjs w xs ++ rest)).drop w) =
        encodeObjs w xs ++ rest :=
      List.drop_left' hw
    simp only [List.length_cons, encodeObjs, List.append_assoc, decodeObjs,
      htake, hdrop]
    rw [leDec_leEnc, Nat.mod_eq_of_lt (hx x (List.mem_cons_self x xs)),
      ih rest (fun y hy => hx y (List.mem_cons_of_mem x hy))]

theorem getD_append_left (l1 l2 : List Nat) (i : Nat) (h : i < l1.length) :
    (l1 ++ l2).getD i 0 = l1.getD i 0 := by
  induction l1 generalizing i with
  | nil => simp at h
  | cons a l ih =>
    cases i with
    | zero => rfl
    | succ i => simpa using ih i (by simpa using h)

theorem getD_take (l : List Nat) (n i : Nat) (h : i < n) :
    (l.take n).getD i 0 = l.getD i 0 := by
  induction l generalizing n i with
  | nil => simp
  | cons a l ih =>
    cases n with
    | zero => omega
    | succ n =>
      cases i with
      | zero => rfl
      | succ i => simpa using ih n i (by omega)

/-! ### Vector (src/lib/marisa/grimoire/vector/vector.h)

`T` is any trivially copyable type of byte width `w > 0` (sizeof(T));
element values are the `w`-byte machine contents, as naturals below
`2^(8*w)`.  The C++ state is buf_ (owning buffer), const_objs_, size_
and capacity_; `store` holds the readable element region: the buffer
contents (length = capacity_) when the vector owns its storage, or the
borrowed slice (length = size_) when it was mapped.  `assert`
statements compile away in release builds and are modelled as no-ops;
MARISA_THROW_IF is an error path. -/

/-- SIZE_MAX of a 64-bit platform. -/
def SIZE_MAX : Nat := 2 ^ 64 - 1

structure Vector where
  /-- buf_ != nullptr: the vector owns its storage. -/
  owned_ : Bool
  /-- const_objs_ != nullptr. -/
  objs_nonnull : Bool
  /-- The readable element region (element values, not raw bytes). -/
  store : List Nat
  size_ : Nat
  capacity_ : Nat
deriving DecidableEq, Repr

/-- The default-constructed Vector (vector.h line 24): all members null
and zero. -/
def Vector.init : Vector := ⟨false, false, [], 0, 0⟩

/-- Vector::fixed (vector.h lines 202-204):
buf_ == nullptr && const_objs_ != nullptr. -/
def Vector.fixed (v : Vector) : Bool := !v.owned_ && v.objs_nonnull

/-- Vector::max_size (vector.h lines 226-228): SIZE_MAX / sizeof(T). -/
def Vector.max_size (w : Nat) : Nat := SIZE_MAX / w

/-- Vector::size (vector.h lines 196-198). -/
def Vector.size (v : Vector) : Nat := v.size_

/-- Vector::total_size (vector.h lines 209-211): sizeof(T) * size_. -/
def Vector.total_size (w : Nat) (v : Vector) : Nat := w * v.size_

/-- Vector::io_size (vector.h lines 212-214):
sizeof(uint64_t) + ((total_size() + 7) & ~0x07U).  `~0x07U` is a 32-bit
unsigned int; zero-extended to size_t it is 0xFFFFFFF8. -/
def Vector.io_size (w : Nat) (v : Vector) : Nat :=
  8 + ((Vector.total_size w v + 7) &&& 0xFFFFFFF8)

/-- The const element accessor `operator[]` (vector.h lines 159-162):
const_objs_[i]. -/
def Vector.elem (v : Vector) (i : Nat) : Nat := v.store.getD i 0

/-- Vector::realloc (vector.h lines 238-251): allocates a new buffer of
`new_capacity` elements, copies the first size_ elements, zeroes the
rest, and owns the result. -/
def Vector.realloc (v : Vector) (new_capacity : Nat) : Vector :=
  { owned_ := true, objs_nonnull := true,
    store := v.store.take v.size_ ++ List.replicate (new_capacity - v.size_) 0,
    size_ := v.size_, capacity_ := new_capacity }

/-- Vector::reserve (vector.h lines 129-144): returns early when the
capacity suffices, otherwise grows to the requested capacity or twice
the current one (capped at max_size) and reallocates. -/
def Vector.reserve (w : Nat) (v : Vector) (capacity : Nat) : Vector :=
  if capacity ≤ v.capacity_ then v
  else
    v.realloc
      (if v.capacity_ > capacity / 2 then
        (if v.capacity_ > Vector.max_size w / 2 then Vector.max_size w
         else v.capacity_ * 2)
       else capacity)

/-- Vector::push_back (vector.h lines 91-97): reserve(size_ + 1), then
placement-new the element at index size_ and increment size_. -/
def Vector.push_back (w : Nat) (v : Vector) (x : Nat) : Vector :=
  { v.reserve w (v.size_ + 1) with
    store := (v.reserve w (v.size_ + 1)).store.set
      (v.reserve w (v.size_ + 1)).size_ x,
    size_ := (v.reserve w (v.size_ + 1)).size_ + 1 }

/-- Vector::pop_back (vector.h lines 99-104): decrements size_; its
preconditions are plain asserts, so in release builds nothing else
happens. -/
def Vector.pop_back (v : Vector) : Vector := { v with size_ := v.size_ - 1 }

/-- Vector::resize(size) (vector.h lines 107-115): reserve, then
default-initialize the new elements — for trivially copyable T
placement-new T() leaves the buffer bytes as they are — and set size_. -/
def Vector.resize (w : Nat) (v : Vector) (size : Nat) : Vector :=
  { v.reserve w size with size_ := size }

/-- Vector::resize(size, x) (vector.h lines 118-127): reserve, fill the
grown region [size_, size) with x, set size_. -/
def Vector.resizeFill (w : Nat) (v : Vector) (size : Nat) (x : Nat) : Vector :=
  if v.size_ < size then
    { v.reserve w size with
      store := (v.reserve w size).store.take (v.reserve w size).size_ ++
        List.replicate (size - (v.reserve w size).size_) x ++
        (v.reserve w size).store.drop size,
      size_ := size }
  else { v.reserve w size with size_ := size }

/-- The success path of Vector::shrink (vector.h lines 146-151):
realloc(size_) when size_ != capacity_. -/
def Vector.shrinkOwned (v : Vector) : Vector :=
  if v.size_ ≠ v.capacity_ then v.realloc v.size_ else v

/-- Vector::shrink (vector.h lines 146-151): MARISA_THROW_IF(fixed(),
std::logic_error), then realloc down to size_.  This is the only
mutator with a run-time (non-assert) fixed() check. -/
def Vector.shrink (v : Vector) : Except Err Vector :=
  if v.fixed then .error .logic_error else .ok v.shrinkOwned

/-- The Vector copy constructor (vector.h lines 28-36): when other.buf_
is null (default-constructed or mapped) the three members are shared;
otherwise copyInit (lines 259-271) allocates, copies the elements, and
then memsets `(capacity - size_) * sizeof(T)` bytes starting at
`new_objs[size_]` — where the member `size_` is still 0 at that point —
wiping the entire freshly copied buffer to zero before installing the
sizes. -/
def Vector.copyCtor (other : Vector) : Vector :=
  if other.owned_ = false then
    { owned_ := false, objs_nonnull := other.objs_nonnull,
      store := other.store, size_ := other.size_, capacity_ := other.capacity_ }
  else
    { owned_ := true, objs_nonnull := true,
      store := List.replicate other.capacity_ 0,
      size_ := other.size_, capacity_ := other.capacity_ }

/-- Vector::operator= (vector.h lines 60-70): clear() and then exactly
the copy-constructor logic, so the result does not depend on the old
left-hand side. -/
def Vector.assign (_self other : Vector) : Vector := Vector.copyCtor other

/-- Vector::write (vector.h lines 85-89): the 8-byte little-endian
total size, the size_ elements, then a writer seek of
`8 - (total_size() % 8)` padding bytes — note the missing outer `% 8`. -/
def Vector.write (w : Nat) (v : Vector) : List Nat :=
  leEnc 8 (Vector.total_size w v) ++ encodeObjs w (v.store.take v.size_) ++
    List.replicate (8 - Vector.total_size w v % 8) 0

/-- Modelled from the spec: a Reader over an in-memory byte source with
a current position (marisa/grimoire/io.h is not under src/). -/
structure Reader where
  data : List Nat
  pos : Nat
deriving DecidableEq, Repr

/-- Modelled from the spec: Reader::read of `n` bytes — fails with an
i/o error when the source is exhausted. -/
def Reader.readBytes (r : Reader) (n : Nat) : Except Err (List Nat × Reader) :=
  if r.pos + n ≤ r.data.length then
    .ok ((r.data.drop r.pos).take n, ⟨r.data, r.pos + n⟩)
  else .error .io_error

/-- Modelled from the spec: Reader::seek reads and discards `n` bytes. -/
def Reader.seek (r : Reader) (n : Nat) : Except Err Reader :=
  if r.pos + n ≤ r.data.length then .ok ⟨r.data, r.pos + n⟩
  else .error .io_error

/-- Modelled from the spec: a Mapper over a borrowed memory region with
a current position. -/
structure Mapper where
  data : List Nat
  pos : Nat
deriving DecidableEq, Repr

/-- Modelled from the spec: Mapper::map of `n` bytes binds a borrowed
slice of the region (no copy) and advances; fails when the region is
too small. -/
def Mapper.mapBytes (m : Mapper) (n : Nat) : Except Err (List Nat × Mapper) :=
  if m.pos + n ≤ m.data.length then
    .ok ((m.data.drop m.pos).take n, ⟨m.data, m.pos + n⟩)
  else .error .io_error

/-- Modelled from the spec: Mapper::seek skips `n` bytes, bound-checked. -/
def Mapper.seek (m : Mapper) (n : Nat) : Except Err Mapper :=
  if m.pos + n ≤ m.data.length then .ok ⟨m.data, m.pos + n⟩
  else .error .io_error

/-- Vector::Vector(Reader &) (vector.h lines 49-58): read the 8-byte
total size, check it against SIZE_MAX and divisibility by sizeof(T),
resize to total/sizeof(T), read the elements into the owned buffer, and
seek over `8 - (total % 8)` padding bytes (again without the outer
`% 8`). -/
def Vector.ofReader (w : Nat) (r : Reader) : Except Err (Vector × Reader) :=
  match r.readBytes 8 with
  | .error e => .error e
  | .ok (tb, r1) =>
    let total := leDec tb
    if total > SIZE_MAX then .error .runtime_error
    else if total % w ≠ 0 then .error .runtime_error
    else
      let siz := total / w
      let v1 := Vector.resize w Vector.init siz
      match r1.readBytes (w * siz) with
      | .error e => .error e
      | .ok (payload, r2) =>
        let v2 := { v1 with store := decodeObjs w siz payload }
        match r2.seek (8 - total % 8) with
        | .error e => .error e
        | .ok r3 => .ok (v2, r3)

/-- Vector::Vector(Mapper &) (vector.h lines 38-47): map the 8-byte
total size, same checks, bind the element slice without copying
(const_objs_ points into the region, buf_ stays null, capacity_ stays
0), and seek over the padding. -/
def Vector.ofMapper (w : Nat) (m : Mapper) : Except Err (Vector × Mapper) :=
  match m.mapBytes 8 with
  | .error e => .error e
  | .ok (tb, m1) =>
    let total := leDec tb
    if total > SIZE_MAX then .error .runtime_error
    else if total % w ≠ 0 then .error .runtime_error
    else
      let siz := total / w
      match m1.mapBytes (w * siz) with
      | .error e => .error e
      | .ok (slice, m2) =>
        match m2.seek (8 - total % 8) with
        | .error e => .error e
        | .ok m3 =>
          .ok (⟨false, true, decodeObjs w siz slice, siz, 0⟩, m3)

theorem readBytes_ok (r : Reader) (n : Nat) (h : r.pos + n ≤ r.data.length) :
    r.readBytes n = .ok ((r.data.drop r.pos).take n, ⟨r.data, r.pos + n⟩) := by
  unfold Reader.readBytes; rw [if_pos h]

theorem readBytes_err (r : Reader) (n : Nat) (h : ¬ r.pos + n ≤ r.data.length) :
    r.readBytes n = .error .io_error := by
  unfold Reader.readBytes; rw [if_neg h]

theorem reader_seek_ok (r : Reader) (n : Nat) (h : r.pos + n ≤ r.data.length) :
    r.seek n = .ok ⟨r.data, r.pos + n⟩ := by
  unfold Reader.seek; rw [if_pos h]

theorem reader_seek_err (r : Reader) (n : Nat) (h : ¬ r.pos + n ≤ r.data.length) :
    r.seek n = .error .io_error := by
  unfold Reader.seek; rw [if_neg h]

theorem mapBytes_ok (m : Mapper) (n : Nat) (h : m.pos + n ≤ m.data.length) :
    m.mapBytes n = .ok ((m.data.drop m.pos).take n, ⟨m.data, m.pos + n⟩) := by
  unfold Mapper.mapBytes; rw [if_pos h]

theorem mapBytes_err (m : Mapper) (n : Nat) (h : ¬ m.pos + n ≤ m.data.length) :
    m.mapBytes n = .error .io_error := by
  unfold Mapper.mapBytes; rw [if_neg h]

theorem mapper_seek_ok (m : Mapper) (n : Nat) (h : m.pos + n ≤ m.data.length) :
    m.seek n = .ok ⟨m.data, m.pos + n⟩ := by
  unfold Mapper.seek; rw [if_pos h]

theorem mapper_seek_err (m : Mapper) (n : Nat) (h : ¬ m.pos + n ≤ m.data.length) :
    m.seek n = .error .io_error := by
  unfold Mapper.seek; rw [if_neg h]

/-- C5: round-trip at the vector level.  Serializing a vector with
write() and reading the bytes back from a Reader positioned at their
start succeeds and yields a vector of the same size with the same
element at every index below size(), leaving the reader positioned
exactly at the end of the bytes write() produced (both sides use the
same `8 - total % 8` padding, so they stay in step).  Hypotheses: the
element width is positive, the stored elements are `w`-byte machine
values, the payload byte count fits the uint64 size prefix, and the
readable region covers the size_ elements that write() reads. -/
theorem C5_vector_roundtrip (w : Nat) (hw : 0 < w) (v : Vector) (rest : List Nat)
    (hval : ∀ x ∈ v.store.take v.size_, x < 2 ^ (8 * w))
    (hsz : w * v.size_ < 2 ^ 64)
    (hstore : v.size_ ≤ v.store.length) :
    ∃ v' r', Vector.ofReader w ⟨Vector.write w v ++ rest, 0⟩ = .ok (v', r') ∧
      v'.size_ = v.size_ ∧
      (∀ i, i < v.size_ → v'.elem i = v.elem i) ∧
      r'.pos = (Vector.write w v).length := by
  have htklen : (v.store.take v.size_).length = v.size_ := by
    rw [List.length_take]; omega
  have hPlen : (encodeObjs w (v.store.take v.size_)).length = w * v.size_ := by
    rw [encodeObjs_length, htklen]
  have hD : Vector.write w v ++ rest =
      leEnc 8 (w * v.size_) ++ (encodeObjs w (v.store.take v.size_) ++
        (List.replicate (8 - w * v.size_ % 8) 0 ++ rest)) := by
    simp [Vector.write, Vector.total_size, List.append_assoc]
  have hDlen : (Vector.write w v ++ rest).length =
      8 + (w * v.size_ + ((8 - w * v.size_ % 8) + rest.length)) := by
    rw [hD]; simp [leEnc_length, hPlen]
  have h64 : (2 : Nat) ^ (8 * 8) = 2 ^ 64 := by norm_num
  have hdec : leDec (leEnc 8 (w * v.size_)) = w * v.size_ := by
    rw [leDec_leEnc, h64]; exact Nat.mod_eq_of_lt hsz
  have hgt : ¬ (w * v.size_ > SIZE_MAX) := by
    have h2 : (2 : Nat) ^ 64 = 18446744073709551616 := by norm_num
    unfold SIZE_MAX; omega
  have hmod : w * v.size_ % w = 0 := Nat.mul_mod_right w v.size_
  have hdiv : w * v.size_ / w = v.size_ := Nat.mul_div_cancel_left v.size_ hw
  have h1 : Reader.readBytes ⟨Vector.write w v ++ rest, 0⟩ 8 =
      .ok (leEnc 8 (w * v.size_), ⟨Vector.write w v ++ rest, 8⟩) := by
    rw [readBytes_ok _ 8 (by simp only [hDlen]; omega)]
    rw [hD]
    simp [List.take_left' (leEnc_length 8 (w * v.size_))]
  have h2 : Reader.readBytes ⟨Vector.write w v ++ rest, 8⟩ (w * v.size_) =
      .ok (encodeObjs w (v.store.take v.size_), ⟨Vector.write w v ++ rest, 8 + w * v.size_⟩) := by
    rw [readBytes_ok _ _ (by simp only [hDlen]; omega)]
    rw [hD]
    have hd8 : ((leEnc 8 (w * v.size_) ++ (encodeObjs w (v.store.take v.size_) ++
        (List.replicate (8 - w * v.size_ % 8) 0 ++ rest))).drop 8) =
        encodeObjs w (v.store.take v.size_) ++
          (List.replicate (8 - w * v.size_ % 8) 0 ++ rest) :=
      List.drop_left' (leEnc_length 8 (w * v.size_))
    simp [hd8, List.take_left' hPlen]
  have h3 : Reader.seek ⟨Vector.write w v ++ rest, 8 + w * v.size_⟩
      (8 - w * v.size_ % 8) =
      .ok ⟨Vector.write w v ++ rest, 8 + w * v.size_ + (8 - w * v.size_ % 8)⟩ :=
    reader_seek_ok _ _ (by simp only [hDlen]; omega)
  have hdecobj : decodeObjs w v.size_ (encodeObjs w (v.store.take v.size_)) =
      v.store.take v.size_ := by
    have := decodeObjs_encodeObjs w (v.store.take v.size_) [] hval
    rwa [htklen, List.append_nil] at this
  refine ⟨{ Vector.resize w Vector.init v.size_ with store := v.store.take v.size_ },
    ⟨Vector.write w v ++ rest, 8 + w * v.size_ + (8 - w * v.size_ % 8)⟩,
    ?_, ?_, ?_, ?_⟩
  · simp [Vector.ofReader, h1, hdec, hmod, hdiv, h2, h3, hdecobj, hgt]
  · rfl
  · intro i hi
    show (v.store.take v.size_).getD i 0 = v.store.getD i 0
    exact getD_take v.store v.size_ i hi
  · have hWlen : (Vector.write w v).length =
        8 + (w * v.size_ + (8 - w * v.size_ % 8)) := by
      simp [Vector.write, Vector.total_size, leEnc_length, hPlen]
    show 8 + w * v.size_ + (8 - w * v.size_ % 8) = (Vector.write w v).length
    rw [hWlen]; omega

/-- C5 witness: the round-trip theorem applied to a concrete owned
vector holding the single byte-wide element 7. -/
theorem C5_vector_roundtrip_witness :
    (0 : Nat) < 1 ∧
    (∀ x ∈ (Vector.store ⟨true, true, [7], 1, 1⟩).take 1, x < 2 ^ (8 * 1)) ∧
    1 * 1 < 2 ^ 64 ∧
    (1 : Nat) ≤ 1 ∧
    (∃ v' r',
      Vector.ofReader 1 ⟨Vector.write 1 ⟨true, true, [7], 1, 1⟩ ++ [], 0⟩ =
        .ok (v', r') ∧
      v'.size_ = Vector.size_ ⟨true, true, [7], 1, 1⟩ ∧
      (∀ i, i < Vector.size_ ⟨true, true, [7], 1, 1⟩ →
        v'.elem i = Vector.elem ⟨true, true, [7], 1, 1⟩ i) ∧
      r'.pos = (Vector.write 1 ⟨true, true, [7], 1, 1⟩).length) :=
  ⟨by decide, by decide, by decide, by decide,
    C5_vector_roundtrip 1 (by decide) ⟨true, true, [7], 1, 1⟩ []
      (by decide) (by decide) (by decide)⟩

theorem resize_init_fixed (w siz : Nat) :
    (Vector.resize w Vector.init siz).fixed = false := by
  simp only [Vector.resize, Vector.reserve, Vector.realloc, Vector.init,
    Vector.fixed]
  split_ifs <;> rfl

/-- C6: memory-map equivalence at the vector level.  If constructing a
vector from a Mapper over the bytes `b` succeeds, then constructing one
from a Reader over the same bytes succeeds as well, the two vectors are
observationally identical — same size(), same element at every index,
same total_size() — and both cursors end at the same position; moreover
the mapped vector is borrowed (fixed() is true: const_objs_ points into
the region, buf_ stays null) while the read one owns its storage
(fixed() is false). -/
theorem C6_map_read_equiv (w : Nat) (b : List Nat) (vm : Vector) (m' : Mapper)
    (h : Vector.ofMapper w ⟨b, 0⟩ = .ok (vm, m')) :
    ∃ vr r', Vector.ofReader w ⟨b, 0⟩ = .ok (vr, r') ∧
      vr.size_ = vm.size_ ∧
      (∀ i, vr.elem i = vm.elem i) ∧
      Vector.total_size w vr = Vector.total_size w vm ∧
      vm.fixed = true ∧ vr.fixed = false ∧
      r'.pos = m'.pos := by
  by_cases c1 : (0 : Nat) + 8 ≤ b.length
  case neg =>
    have he : Vector.ofMapper w ⟨b, 0⟩ = .error .io_error := by
      simp [Vector.ofMapper, mapBytes_err ⟨b, 0⟩ 8 c1]
    rw [he] at h; simp at h
  by_cases c2 : leDec (b.take 8) > SIZE_MAX
  case pos =>
    have he : Vector.ofMapper w ⟨b, 0⟩ = .error .runtime_error := by
      simp [Vector.ofMapper, mapBytes_ok ⟨b, 0⟩ 8 c1, c2]
    rw [he] at h; simp at h
  by_cases c3 : leDec (b.take 8) % w ≠ 0
  case pos =>
    have he : Vector.ofMapper w ⟨b, 0⟩ = .error .runtime_error := by
      simp [Vector.ofMapper, mapBytes_ok ⟨b, 0⟩ 8 c1, c2, c3]
    rw [he] at h; simp at h
  by_cases c4 : (8 : Nat) + w * (leDec (b.take 8) / w) ≤ b.length
  case neg =>
    have he : Vector.ofMapper w ⟨b, 0⟩ = .error .io_error := by
      simp [Vector.ofMapper, mapBytes_ok ⟨b, 0⟩ 8 c1, c2, c3,
        mapBytes_err ⟨b, 8⟩ (w * (leDec (b.take 8) / w)) c4]
    rw [he] at h; simp at h
  by_cases c5 : (8 : Nat) + w * (leDec (b.take 8) / w) +
      (8 - leDec (b.take 8) % 8) ≤ b.length
  case neg =>
    have he : Vector.ofMapper w ⟨b, 0⟩ = .error .io_error := by
      simp [Vector.ofMapper, mapBytes_ok ⟨b, 0⟩ 8 c1, c2, c3,
        mapBytes_ok ⟨b, 8⟩ (w * (leDec (b.take 8) / w)) c4,
        mapper_seek_err ⟨b, 8 + w * (leDec (b.take 8) / w)⟩
          (8 - leDec (b.take 8) % 8) c5]
    rw [he] at h; simp at h
  have hofm : Vector.ofMapper w ⟨b, 0⟩ =
      .ok (⟨false, true,
        decodeObjs w (leDec (b.take 8) / w) ((b.drop 8).take (w * (leDec (b.take 8) / w))),
        leDec (b.take 8) / w, 0⟩,
        ⟨b, 8 + w * (leDec (b.take 8) / w) + (8 - leDec (b.take 8) % 8)⟩) := by
    simp [Vector.ofMapper, mapBytes_ok ⟨b, 0⟩ 8 c1, c2, c3,
      mapBytes_ok ⟨b, 8⟩ (w * (leDec (b.take 8) / w)) c4,
      mapper_seek_ok ⟨b, 8 + w * (leDec (b.take 8) / w)⟩
        (8 - leDec (b.take 8) % 8) c5]
  rw [hofm] at h
  rw [Except.ok.injEq, Prod.mk.injEq] at h
  obtain ⟨hvm, hm'⟩ := h
  subst hvm; subst hm'
  refine ⟨{ Vector.resize w Vector.init (leDec (b.take 8) / w) with
      store := decodeObjs w (leDec (b.take 8) / w)
        ((b.drop 8).take (w * (leDec (b.take 8) / w))) },
    ⟨b, 8 + w * (leDec (b.take 8) / w) + (8 - leDec (b.take 8) % 8)⟩,
    ?_, rfl, fun i => rfl, rfl, rfl, ?_, rfl⟩
  · simp [Vector.ofReader, readBytes_ok ⟨b, 0⟩ 8 c1, c2, c3,
      readBytes_ok ⟨b, 8⟩ (w * (leDec (b.take 8) / w)) c4,
      reader_seek_ok ⟨b, 8 + w * (leDec (b.take 8) / w)⟩
        (8 - leDec (b.take 8) % 8) c5]
  · show (Vector.resize w Vector.init (leDec (b.take 8) / w)).fixed = false
    exact resize_init_fixed w (leDec (b.take 8) / w)

/-- C6 witness: a concrete 16-byte region framing one byte-wide element
42 — mapping succeeds, and the equivalence applies. -/
theorem C6_map_read_equiv_witness :
    (Vector.ofMapper 1 ⟨leEnc 8 1 ++ [42] ++ List.replicate 7 0, 0⟩ =
      .ok (⟨false, true, [42], 1, 0⟩,
        ⟨leEnc 8 1 ++ [42] ++ List.replicate 7 0, 16⟩)) ∧
    (∃ vr r',
      Vector.ofReader 1 ⟨leEnc 8 1 ++ [42] ++ List.replicate 7 0, 0⟩ =
        .ok (vr, r') ∧
      vr.size_ = Vector.size_ ⟨false, true, [42], 1, 0⟩ ∧
      (∀ i, vr.elem i = Vector.elem ⟨false, true, [42], 1, 0⟩ i) ∧
      Vector.total_size 1 vr = Vector.total_size 1 ⟨false, true, [42], 1, 0⟩ ∧
      Vector.fixed ⟨false, true, [42], 1, 0⟩ = true ∧ vr.fixed = false ∧
      r'.pos = Mapper.pos ⟨leEnc 8 1 ++ [42] ++ List.replicate 7 0, 16⟩) :=
  ⟨by decide,
    C6_map_read_equiv 1 (leEnc 8 1 ++ [42] ++ List.replicate 7 0)
      ⟨false, true, [42], 1, 0⟩
      ⟨leEnc 8 1 ++ [42] ++ List.replicate 7 0, 16⟩ (by decide)⟩

/-- C4: at the failing input — any vector whose payload is already
8-byte aligned, here the empty vector with sizeof(T) = 8 — write()
emits 16 bytes (8-byte size prefix plus 8 padding bytes, because the
final seek pads `8 - total % 8 = 8` bytes instead of 0) while io_size()
reports 8; the emitted byte count is still a multiple of 8. -/
theorem C4_io_size_mismatch :
    (Vector.write 8 Vector.init).length = 16 ∧
    Vector.io_size 8 Vector.init = 8 ∧
    (16 : Nat) ≠ 8 ∧
    (Vector.write 8 Vector.init).length % 8 = 0 := by decide

/-- C7 counterexample: pop_back on a fixed (mapped) vector — here one
borrowed element 5 — raises no error and changes the observable size
from 1 to 0, so it is not the case that every mutation operation on a
mapped vector fails with a logic error leaving the vector unchanged
(its fixed() precondition is a plain assert, compiled out in release
builds). -/
theorem C7_counterexample :
    Vector.fixed ⟨false, true, [5], 1, 0⟩ = true ∧
    Vector.pop_back ⟨false, true, [5], 1, 0⟩ ≠ ⟨false, true, [5], 1, 0⟩ ∧
    (Vector.pop_back ⟨false, true, [5], 1, 0⟩).size_ = 0 := by decide

/-- C7 (amended): of the mutating operations only shrink() guards
fixed() with a run-time check: on every fixed (mapped) vector it fails
with a logic error and publishes no new state; push_back, pop_back,
resize and reserve only assert. -/
theorem C7_shrink_fixed_logic_error (v : Vector) (h : v.fixed = true) :
    Vector.shrink v = .error .logic_error := by
  unfold Vector.shrink
  rw [if_pos h]

/-- C7 witness: the amended theorem applied to a concrete mapped
vector. -/
theorem C7_shrink_fixed_logic_error_witness :
    Vector.fixed ⟨false, true, [5], 1, 0⟩ = true ∧
    Vector.shrink ⟨false, true, [5], 1, 0⟩ = .error .logic_error :=
  ⟨by decide, C7_shrink_fixed_logic_error ⟨false, true, [5], 1, 0⟩ (by decide)⟩

/-- C9: at the failing input — an owned vector holding the single
element 5 — the copy constructor succeeds but the copy's element 0 is
0, not 5: copyInit zeroes the whole new buffer after copying (its
memset starts at index size_ = 0 and covers capacity elements), so
copying an owned vector does not preserve the elements.  The sharing
branch for a mapped source does behave as claimed. -/
theorem C9_copy_zeroes_owned :
    (Vector.copyCtor ⟨true, true, [5], 1, 1⟩).size_ = 1 ∧
    (Vector.copyCtor ⟨true, true, [5], 1, 1⟩).elem 0 = 0 ∧
    Vector.elem ⟨true, true, [5], 1, 1⟩ 0 = 5 ∧
    (0 : Nat) ≠ 5 ∧
    Vector.copyCtor ⟨false, true, [7], 1, 0⟩ = ⟨false, true, [7], 1, 0⟩ := by
  decide

/-! ### The owned-vector mutation invariant (C8) -/

/-- The mutation operations of vector.h that an owning client may
issue. -/
inductive Op where
  | push (x : Nat)
  | pop
  | resizeTo (n : Nat)
  | resizeFillTo (n x : Nat)
  | reserveTo (n : Nat)
  | shrinkOp
deriving DecidableEq, Repr

/-- The assert preconditions of each mutator: !fixed() everywhere,
size_ < max_size() for push_back, size_ != 0 for pop_back, and
`capacity <= max_size()` inside reserve whenever it has to grow. -/
def validOp (w : Nat) (v : Vector) : Op → Prop
  | .push _ => v.fixed = false ∧ v.size_ < Vector.max_size w
  | .pop => v.fixed = false ∧ v.size_ ≠ 0
  | .resizeTo n => v.fixed = false ∧ (n ≤ v.capacity_ ∨ n ≤ Vector.max_size w)
  | .resizeFillTo n _ => v.fixed = false ∧ (n ≤ v.capacity_ ∨ n ≤ Vector.max_size w)
  | .reserveTo n => v.fixed = false ∧ (n ≤ v.capacity_ ∨ n ≤ Vector.max_size w)
  | .shrinkOp => v.fixed = false

instance (w : Nat) (v : Vector) (op : Op) : Decidable (validOp w v op) := by
  cases op <;> simp only [validOp] <;> infer_instance

/-- Running one mutation. -/
def applyOp (w : Nat) (v : Vector) : Op → Vector
  | .push x => v.push_back w x
  | .pop => v.pop_back
  | .resizeTo n => v.resize w n
  | .resizeFillTo n x => Vector.resizeFill w v n x
  | .reserveTo n => v.reserve w n
  | .shrinkOp => v.shrinkOwned

/-- Running a sequence of mutations. -/
def runOps (w : Nat) (v : Vector) : List Op → Vector
  | [] => v
  | op :: ops => runOps w (applyOp w v op) ops

/-- Every operation of the sequence satisfies its asserts in the state
it runs in. -/
def ValidSeq (w : Nat) (v : Vector) : List Op → Prop
  | [] => True
  | op :: ops => validOp w v op ∧ ValidSeq w (applyOp w v op) ops

def ValidSeq.dec (w : Nat) :
    (ops : List Op) → (v : Vector) → Decidable (ValidSeq w v ops)
  | [], _ => .isTrue trivial
  | op :: ops, v =>
    haveI : Decidable (ValidSeq w (applyOp w v op) ops) :=
      ValidSeq.dec w ops (applyOp w v op)
    inferInstanceAs (Decidable (_ ∧ _))

instance (w : Nat) (v : Vector) (ops : List Op) : Decidable (ValidSeq w v ops) :=
  ValidSeq.dec w ops v

/-- The C8 invariant: an owned (not mapped) vector with
size_ ≤ capacity_ ≤ max_size whose readable buffer covers capacity_
elements. -/
def Inv (w : Nat) (v : Vector) : Prop :=
  v.fixed = false ∧ v.size_ ≤ v.capacity_ ∧
    v.capacity_ ≤ Vector.max_size w ∧ v.store.length = v.capacity_

instance (w : Nat) (v : Vector) : Decidable (Inv w v) := by
  unfold Inv; infer_instance

theorem Inv.toRealloc (w : Nat) (v : Vector) (nc : Nat) (h : Inv w v)
    (h1 : v.size_ ≤ nc) (h2 : nc ≤ Vector.max_size w) :
    Inv w (v.realloc nc) := by
  obtain ⟨hf, hsc, hcm, hl⟩ := h
  refine ⟨rfl, h1, h2, ?_⟩
  show ((v.store.take v.size_) ++ List.replicate (nc - v.size_) 0).length = nc
  rw [List.length_append, List.length_take, List.length_replicate]
  omega

theorem Inv.toReserve (w : Nat) (v : Vector) (c : Nat) (h : Inv w v)
    (hval : c ≤ v.capacity_ ∨ c ≤ Vector.max_size w) :
    Inv w (v.reserve w c) ∧ c ≤ (v.reserve w c).capacity_ ∧
      (v.reserve w c).size_ = v.size_ := by
  unfold Vector.reserve
  by_cases hc : c ≤ v.capacity_
  · rw [if_pos hc]; exact ⟨h, hc, rfl⟩
  · rw [if_neg hc]
    have hcm2 : c ≤ Vector.max_size w := hval.resolve_left hc
    obtain ⟨hf, hsc, hcm, hl⟩ := h
    by_cases h1 : v.capacity_ > c / 2
    · by_cases h2 : v.capacity_ > Vector.max_size w / 2
      · rw [if_pos h1, if_pos h2]
        refine ⟨Inv.toRealloc w v _ ⟨hf, hsc, hcm, hl⟩ (by omega) (by omega), ?_, rfl⟩
        show c ≤ Vector.max_size w
        omega
      · rw [if_pos h1, if_neg h2]
        refine ⟨Inv.toRealloc w v _ ⟨hf, hsc, hcm, hl⟩ (by omega) (by omega), ?_, rfl⟩
        show c ≤ v.capacity_ * 2
        omega
    · rw [if_neg h1]
      refine ⟨Inv.toRealloc w v _ ⟨hf, hsc, hcm, hl⟩ (by omega) hcm2, ?_, rfl⟩
      show c ≤ c
      omega

theorem elem_realloc (v : Vector) (nc i : Nat) (hi : i < v.size_)
    (hs : v.size_ ≤ v.store.length) :
    (v.realloc nc).elem i = v.elem i := by
  show ((v.store.take v.size_) ++ List.replicate (nc - v.size_) 0).getD i 0 =
    v.store.getD i 0
  rw [getD_append_left _ _ i (by rw [List.length_take]; omega)]
  exact getD_take v.store v.size_ i hi

theorem elem_reserve (w : Nat) (v : Vector) (c i : Nat) (hi : i < v.size_)
    (hs : v.size_ ≤ v.store.length) :
    (v.reserve w c).elem i = v.elem i := by
  unfold Vector.reserve
  split_ifs <;> first | rfl | exact elem_realloc v _ i hi hs

theorem elem_shrinkOwned (v : Vector) (i : Nat) (hi : i < v.size_)
    (hs : v.size_ ≤ v.store.length) :
    v.shrinkOwned.elem i = v.elem i := by
  unfold Vector.shrinkOwned
  split_ifs with h
  · exact elem_realloc v _ i hi hs
  · rfl

theorem inv_applyOp (w : Nat) (v : Vector) (op : Op) (h : Inv w v)
    (hv : validOp w v op) : Inv w (applyOp w v op) := by
  cases op with
  | push x =>
    obtain ⟨hf, hsm⟩ := hv
    obtain ⟨hinv, hcap, hsize⟩ :=
      Inv.toReserve w v (v.size_ + 1) h (Or.inr (by omega))
    obtain ⟨hf1, hsc1, hcm1, hl1⟩ := hinv
    refine ⟨hf1, ?_, hcm1, ?_⟩
    · show (v.reserve w (v.size_ + 1)).size_ + 1 ≤ (v.reserve w (v.size_ + 1)).capacity_
      omega
    · show (((v.reserve w (v.size_ + 1)).store.set
        (v.reserve w (v.size_ + 1)).size_ x)).length =
          (v.reserve w (v.size_ + 1)).capacity_
      rw [List.length_set]
      exact hl1
  | pop =>
    obtain ⟨hf, hsc, hcm, hl⟩ := h
    exact ⟨hf, by show v.size_ - 1 ≤ v.capacity_; omega, hcm, hl⟩
  | resizeTo n =>
    obtain ⟨hinv, hcap, hsize⟩ := Inv.toReserve w v n h hv.2
    obtain ⟨hf1, hsc1, hcm1, hl1⟩ := hinv
    exact ⟨hf1, hcap, hcm1, hl1⟩
  | resizeFillTo n x =>
    obtain ⟨hinv, hcap, hsize⟩ := Inv.toReserve w v n h hv.2
    obtain ⟨hf1, hsc1, hcm1, hl1⟩ := hinv
    show Inv w (Vector.resizeFill w v n x)
    unfold Vector.resizeFill
    split_ifs with hlt
    · dsimp only
      exact ⟨hf1, hcap, hcm1, by
        dsimp only
        rw [List.length_append, List.length_append, List.length_take,
          List.length_replicate, List.length_drop]
        omega⟩
    · dsimp only
      exact ⟨hf1, hcap, hcm1, hl1⟩
  | reserveTo n =>
    exact (Inv.toReserve w v n h hv.2).1
  | shrinkOp =>
    obtain ⟨hf, hsc, hcm, hl⟩ := h
    show Inv w v.shrinkOwned
    unfold Vector.shrinkOwned
    split_ifs with hne
    · exact Inv.toRealloc w v v.size_ ⟨hf, hsc, hcm, hl⟩ (by omega) (by omega)
    · exact ⟨hf, hsc, hcm, hl⟩

theorem inv_runOps (w : Nat) (ops : List Op) (v : Vector) (h : Inv w v)
    (hs : ValidSeq w v ops) : Inv w (runOps w v ops) := by
  induction ops generalizing v with
  | nil => exact h
  | cons op ops ih => exact ih (applyOp w v op) (inv_applyOp w v op h hs.1) hs.2

/-- C8: after any sequence of valid push_back / pop_back / resize /
reserve / shrink operations on an owned vector satisfying the
invariant, size() ≤ capacity() ≤ max_size() still holds; and the
capacity-changing operations reserve and shrink leave every element
below size() unchanged. -/
theorem C8_vector_invariant (w : Nat) :
    (∀ (ops : List Op) (v0 : Vector), Inv w v0 → ValidSeq w v0 ops →
      (runOps w v0 ops).size_ ≤ (runOps w v0 ops).capacity_ ∧
      (runOps w v0 ops).capacity_ ≤ Vector.max_size w) ∧
    (∀ (v : Vector) (c i : Nat), Inv w v → i < v.size_ →
      (v.reserve w c).elem i = v.elem i) ∧
    (∀ (v : Vector) (i : Nat), Inv w v → i < v.size_ →
      v.shrinkOwned.elem i = v.elem i) := by
  refine ⟨?_, ?_, ?_⟩
  · intro ops v0 h hs
    obtain ⟨_, h1, h2, _⟩ := inv_runOps w ops v0 h hs
    exact ⟨h1, h2⟩
  · intro v c i h hi
    exact elem_reserve w v c i hi (by obtain ⟨_, hsc, _, hl⟩ := h; omega)
  · intro v i h hi
    exact elem_shrinkOwned v i hi (by obtain ⟨_, hsc, _, hl⟩ := h; omega)

/-- C8 witness: a concrete valid operation sequence from the default
vector (with sizeof(T) = 4), and concrete reserve/shrink element
preservation. -/
theorem C8_vector_invariant_witness :
    (Inv 4 Vector.init ∧
      ValidSeq 4 Vector.init
        [.push 1, .push 2, .push 3, .pop, .resizeTo 5, .resizeFillTo 6 9,
          .reserveTo 9, .shrinkOp] ∧
      (runOps 4 Vector.init
        [.push 1, .push 2, .push 3, .pop, .resizeTo 5, .resizeFillTo 6 9,
          .reserveTo 9, .shrinkOp]).size_ ≤
        (runOps 4 Vector.init
          [.push 1, .push 2, .push 3, .pop, .resizeTo 5, .resizeFillTo 6 9,
            .reserveTo 9, .shrinkOp]).capacity_ ∧
      (runOps 4 Vector.init
        [.push 1, .push 2, .push 3, .pop, .resizeTo 5, .resizeFillTo 6 9,
          .reserveTo 9, .shrinkOp]).capacity_ ≤ Vector.max_size 4) ∧
    (Inv 4 ⟨true, true, [5], 1, 1⟩ ∧ (0 : Nat) < 1 ∧
      (Vector.reserve 4 ⟨true, true, [5], 1, 1⟩ 3).elem 0 =
        Vector.elem ⟨true, true, [5], 1, 1⟩ 0) ∧
    (Inv 4 ⟨true, true, [5, 0], 1, 2⟩ ∧ (0 : Nat) < 1 ∧
      (Vector.shrinkOwned ⟨true, true, [5, 0], 1, 2⟩).elem 0 =
        Vector.elem ⟨true, true, [5, 0], 1, 2⟩ 0) :=
  ⟨⟨by decide, by decide,
      (C8_vector_invariant 4).1
        [.push 1, .push 2, .push 3, .pop, .resizeTo 5, .resizeFillTo 6 9,
          .reserveTo 9, .shrinkOp] Vector.init (by decide) (by decide) |>.1,
      (C8_vector_invariant 4).1
        [.push 1, .push 2, .push 3, .pop, .resizeTo 5, .resizeFillTo 6 9,
          .reserveTo 9, .shrinkOp] Vector.init (by decide) (by decide) |>.2⟩,
    ⟨by decide, by decide,
      (C8_vector_invariant 4).2.1 ⟨true, true, [5], 1, 1⟩ 3 0 (by decide) (by decide)⟩,
    ⟨by decide, by decide,
      (C8_vector_invariant 4).2.2 ⟨true, true, [5, 0], 1, 2⟩ 0 (by decide) (by decide)⟩⟩

/-! ### Trie-level i/o entry points (src/unnamed/part_000, marisa/trie.cc)

The LoudsTrie itself and the reader/mapper opening plumbing are not
under src/; they appear here as an abstract state type α and arbitrary
fallible constructions of type `Except Err α`.  Each entry point of the
source follows the same pattern: construct a temporary LoudsTrie (which
may fail), and only then `trie_.swap(temp)`. -/

/-- The `trie_.swap(temp)` publication step: when the construction of
the temporary failed, the caller's state is returned untouched together
with the error; on success the new trie replaces it. -/
def swapOnSuccess {α : Type} (attempt : Except Err α) (self : α) :
    α × Option Err :=
  match attempt with
  | .error e => (self, some e)
  | .ok t => (t, none)

/-- Trie::build (part_000 lines 22-25): `new LoudsTrie(keyset,
config_flags)` into a temporary, then swap; `mk` abstracts the
LoudsTrie constructor, which is not under src/. -/
def Trie.build {α κ : Type} (mk : κ → Nat → Except Err α) (self : α)
    (keyset : κ) (config_flags : Nat) : α × Option Err :=
  swapOnSuccess (mk keyset config_flags) self

/-- marisa::fread and TrieIo::fread (part_000 lines 95-104 and
133-137): null checks on the FILE* and the out-trie, then open a
reader and read a temporary LoudsTrie (both folded into `readNew`),
then swap. -/
def freadTrie {α : Type} (readNew : Except Err α)
    (file_null trie_null : Bool) (self : α) : α × Option Err :=
  if file_null then (self, some .invalid_argument)
  else if trie_null then (self, some .invalid_argument)
  else swapOnSuccess readNew self

/-- TrieSerializer::load (part_000 lines 184-193): filename null check,
then open a reader and read a temporary LoudsTrie, then swap. -/
def TrieSerializer.load {α : Type} (readNew : Except Err α)
    (filename_null : Bool) (self : α) : α × Option Err :=
  if filename_null then (self, some .invalid_argument)
  else swapOnSuccess readNew self

/-- TrieSerializer::map (part_000 lines 173-182): rejects a null data
pointer only when size != 0, then opens a mapper over the region and
maps a temporary LoudsTrie (folded into `mapNew`), then swaps. -/
def TrieSerializer.map {α : Type} (mapNew : Except Err α)
    (ptr_null : Bool) (siz : Nat) (self : α) : α × Option Err :=
  if ptr_null ∧ siz ≠ 0 then (self, some .invalid_argument)
  else swapOnSuccess mapNew self

/-- C3: strong exception safety of the trie entry points.  Whenever
Trie::build, fread, TrieSerializer::load or TrieSerializer::map reports
an error, the published trie state — and with it every query answer —
is exactly the state from before the call; each entry point constructs
its temporary LoudsTrie completely before the only mutation, the final
swap. -/
theorem C3_error_leaves_state {α κ : Type} (mk : κ → Nat → Except Err α)
    (readNew mapNew : Except Err α)
    (file_null trie_null filename_null ptr_null : Bool)
    (siz : Nat) (self : α) (ks : κ) (cf : Nat) (e : Err) :
    ((Trie.build mk self ks cf).2 = some e →
      (Trie.build mk self ks cf).1 = self) ∧
    ((freadTrie readNew file_null trie_null self).2 = some e →
      (freadTrie readNew file_null trie_null self).1 = self) ∧
    ((TrieSerializer.load readNew filename_null self).2 = some e →
      (TrieSerializer.load readNew filename_null self).1 = self) ∧
    ((TrieSerializer.map mapNew ptr_null siz self).2 = some e →
      (TrieSerializer.map mapNew ptr_null siz self).1 = self) := by
  refine ⟨?_, ?_, ?_, ?_⟩ <;> intro h
  · cases hmk : mk ks cf with
    | error e2 => simp [Trie.build, swapOnSuccess, hmk]
    | ok t => simp [Trie.build, swapOnSuccess, hmk] at h
  · cases hr : readNew with
    | error e2 =>
      cases file_null <;> cases trie_null <;>
        simp [freadTrie, swapOnSuccess, hr]
    | ok t =>
      cases file_null <;> cases trie_null <;>
        simp_all [freadTrie, swapOnSuccess]
  · cases hr : readNew with
    | error e2 =>
      cases filename_null <;> simp [TrieSerializer.load, swapOnSuccess, hr]
    | ok t =>
      cases filename_null <;> simp_all [TrieSerializer.load, swapOnSuccess]
  · cases hm : mapNew with
    | error e2 =>
      by_cases hp : ptr_null ∧ siz ≠ 0 <;>
        simp [TrieSerializer.map, swapOnSuccess, hm, hp]
    | ok t =>
      by_cases hp : ptr_null ∧ siz ≠ 0 <;>
        simp_all [TrieSerializer.map, swapOnSuccess]

/-- C3 witness: each entry point applied to a failing construction over
the state 7 reports the error and leaves the state at 7. -/
theorem C3_error_leaves_state_witness :
    ((Trie.build (fun (_ : Nat) (_ : Nat) => (.error .io_error : Except Err Nat))
        7 0 0).2 = some .io_error ∧
      (Trie.build (fun (_ : Nat) (_ : Nat) => (.error .io_error : Except Err Nat))
        7 0 0).1 = 7) ∧
    ((freadTrie (.error .io_error : Except Err Nat) false false 7).2 =
        some .io_error ∧
      (freadTrie (.error .io_error : Except Err Nat) false false 7).1 = 7) ∧
    ((TrieSerializer.load (.error .io_error : Except Err Nat) false 7).2 =
        some .io_error ∧
      (TrieSerializer.load (.error .io_error : Except Err Nat) false 7).1 = 7) ∧
    ((TrieSerializer.map (.error .io_error : Except Err Nat) false 0 7).2 =
        some .io_error ∧
      (TrieSerializer.map (.error .io_error : Except Err Nat) false 0 7).1 = 7) :=
  ⟨⟨by decide,
      (C3_error_leaves_state (fun (_ : Nat) (_ : Nat) => .error .io_error)
        (.error .io_error) (.error .io_error) false false false false 0 7 0 0
        .io_error).1 (by decide)⟩,
    ⟨by decide,
      (C3_error_leaves_state (fun (_ : Nat) (_ : Nat) => .error .io_error)
        (.error .io_error) (.error .io_error) false false false false 0 7 0 0
        .io_error).2.1 (by decide)⟩,
    ⟨by decide,
      (C3_error_leaves_state (fun (_ : Nat) (_ : Nat) => .error .io_error)
        (.error .io_error) (.error .io_error) false false false false 0 7 0 0
        .io_error).2.2.1 (by decide)⟩,
    ⟨by decide,
      (C3_error_leaves_state (fun (_ : Nat) (_ : Nat) => .error .io_error)
        (.error .io_error) (.error .io_error) false false false false 0 7 0 0
        .io_error).2.2.2 (by decide)⟩⟩

/-- C10: the argument check of TrieSerializer::map: with a null data
pointer and nonzero size it fails with invalid-argument and publishes
nothing; with a null pointer and size 0 the check passes and the call
proceeds to the mapping attempt — an empty region may be mapped with a
null pointer. -/
theorem C10_map_null_size_check {α : Type} (mapNew : Except Err α)
    (self : α) (siz : Nat) :
    (siz ≠ 0 → TrieSerializer.map mapNew true siz self =
      (self, some .invalid_argument)) ∧
    TrieSerializer.map mapNew true 0 self = swapOnSuccess mapNew self := by
  constructor
  · intro hs
    unfold TrieSerializer.map
    rw [if_pos ⟨rfl, hs⟩]
  · unfold TrieSerializer.map
    rw [if_neg (by simp)]

/-- C10 witness: map(nullptr, 1) is rejected; map(nullptr, 0) proceeds
to the mapping attempt. -/
theorem C10_map_null_size_check_witness :
    ((1 : Nat) ≠ 0 ∧ TrieSerializer.map (.ok 5 : Except Err Nat) true 1 3 =
      (3, some .invalid_argument)) ∧
    TrieSerializer.map (.ok 5 : Except Err Nat) true 0 3 =
      swapOnSuccess (.ok 5) 3 :=
  ⟨⟨by decide, (C10_map_null_size_check (.ok 5) 3 1).1 (by decide)⟩,
    (C10_map_null_size_check (.ok 5) 3 0).2⟩

end marisa
